import Mathlib

/-!
Shallow embedding of `src/app.py` (InsurDoc-AI): a Streamlit pipeline that
extracts text from PDF photo reports and a DOCX template, asks an LLM for a
placeholder-to-value mapping, and fills the template by literal substring
replacement.

Modelling conventions:
* Python `str` is Lean `String`; `str.replace` is modelled character-exactly
  (including the empty-pattern behaviour, where the replacement is inserted at
  every character boundary).
* A PDF file is the list of its pages; `page.extract_text()` is an
  `Option String` (`none` models `None`; `x or ""` maps both `None` and `""`
  to `""`, which `Option.getD ""` reproduces because `some ""` yields `""`).
* A DOCX document is its top-level paragraph texts plus its tables
  (table = rows = cells; a cell is the list of its paragraphs' texts).
  python-docx `_Cell.text` reads the newline-join of the cell's paragraphs and
  its setter clears the cell to a single paragraph holding the assigned text.
* Raised Python exceptions are `Except.error`; the parsed LLM response body is
  an `Option Json` (`none` models a `json.loads` failure).
-/

namespace InsurDoc

/-! ### Python `str.replace` -/

/-- Left-to-right non-overlapping scan of `str.replace` for a non-empty
pattern `o :: os`.  The fuel argument only forces structural recursion; it is
called with fuel = length of the scanned list, and each step consumes one unit
of fuel while shortening the list by at least one character, so the
fuel-exhaustion branch is never reached from `pyReplace`. -/
def replaceCore (o : Char) (os new : List Char) : Nat → List Char → List Char
  | _, [] => []
  | 0, s => s
  | fuel + 1, c :: rest =>
    if (o :: os).isPrefixOf (c :: rest) then
      new ++ replaceCore o os new fuel (rest.drop os.length)
    else
      c :: replaceCore o os new fuel rest

/-- Python `s.replace(old, new)`: literal substring replacement, left to right,
non-overlapping; the text inserted for one occurrence is not re-scanned.  For
the empty pattern, Python inserts `new` at every character boundary
(`"ab".replace("", "X") == "XaXbX"`). -/
def pyReplace (s old new : String) : String :=
  match old.data with
  | [] => String.mk (new.data ++ s.data.flatMap (fun c => c :: new.data))
  | o :: os => String.mk (replaceCore o os new.data s.data.length s.data)

/-- The `replace` closure inside `fill_template_docx` (src/app.py:117-120):
`for k, v in field_values.items(): text = text.replace(k, v)`.  The mapping is
a list of key/value pairs in Python dict iteration (= insertion) order. -/
def replace (field_values : List (String × String)) (text : String) : String :=
  field_values.foldl (fun t kv => pyReplace t kv.1 kv.2) text

/-! ### DOCX document model -/

/-- A table cell: the texts of its paragraphs. -/
abbrev Cell := List String

/-- A table row: its cells in reading order. -/
abbrev Row := List Cell

/-- A table: its rows in order. -/
abbrev Table := List Row

/-- A DOCX document as the pipeline sees it: top-level paragraph texts in
document order, and tables in document order. -/
structure DocxDocument where
  paragraphs : List String
  tables : List Table
deriving DecidableEq, Repr

/-- python-docx `_Cell.text` getter: the cell's paragraph texts joined with
newlines. -/
def cellText (c : Cell) : String := String.intercalate "\n" c

/-- python-docx `_Cell.text` setter: clears the cell's content and leaves one
paragraph holding the assigned text (line breaks in the text round-trip
through `<w:br/>` elements back to `"\n"`). -/
def setCellText (s : String) : Cell := [s]

/-! ### Extractors (src/app.py:43-67) -/

/-- `extract_text_from_pdfs(pdf_files)` (src/app.py:43-50): start from
`text = []`, append `page.extract_text() or ""` for every page of every file
in order, and join with blank lines. -/
def extract_text_from_pdfs (pdf_files : List (List (Option String))) : String :=
  let text :=
    pdf_files.foldl (fun acc reader =>
      reader.foldl (fun acc page => acc ++ [page.getD ""]) acc) []
  String.intercalate "\n\n" text

/-- `extract_text_from_docx(docfile)` (src/app.py:53-67): append every
top-level paragraph's text, then walk tables / rows / cells / cell paragraphs
appending each text, and join everything with single newlines. -/
def extract_text_from_docx (doc : DocxDocument) : String :=
  let lines₀ := doc.paragraphs.foldl (fun ls p => ls ++ [p]) []
  let lines :=
    doc.tables.foldl (fun ls table =>
      table.foldl (fun ls row =>
        row.foldl (fun ls cell =>
          cell.foldl (fun ls p => ls ++ [p]) ls) ls) ls) lines₀
  String.intercalate "\n" lines

/-! ### LLM gateway (src/app.py:23-39, 70-110) -/

/-- JSON values, as produced by `json.loads`. -/
inductive Json where
  | null
  | bool (b : Bool)
  | num (n : Int)
  | str (s : String)
  | arr (elems : List Json)
  | obj (members : List (String × Json))

/-- Python `dict.get(key, default)` on the dict produced by `json.loads` for a
JSON object: duplicate keys are overwritten left to right, so the last binding
wins. -/
def dictGet (members : List (String × Json)) (key : String) (dflt : Json) : Json :=
  (members.reverse.lookup key).getD dflt

/-- The OpenAI client constructed by `get_llm_client` (src/app.py:30-38),
recording the arguments the code passes. -/
structure OpenAIClient where
  base_url : String
  api_key : String
  default_headers : List (String × String)
deriving DecidableEq, Repr

/-- `get_llm_client()` (src/app.py:24-39): read `OPENROUTER_API_KEY` from the
environment (`none` models an unset variable); `if not api_key` raises
`ValueError` when the key is `None` or the empty string; otherwise construct
the client with the OpenRouter base URL, the key, and the default headers. -/
def get_llm_client (env_OPENROUTER_API_KEY : Option String) : Except String OpenAIClient :=
  match env_OPENROUTER_API_KEY with
  | none => .error "OPENROUTER_API_KEY not found in .env"
  | some api_key =>
    if api_key = "" then
      .error "OPENROUTER_API_KEY not found in .env"
    else
      .ok { base_url := "https://openrouter.ai/api/v1"
            api_key := api_key
            default_headers :=
              [("Authorization", "Bearer " ++ api_key),
               ("HTTP-Referer", "https://openrouter.ai"),
               ("X-Title", "Insurance-GLR-Streamlit-App")] }

/-- The response-handling tail of `call_llm_to_get_field_mapping`
(src/app.py:108-110): `data = json.loads(raw); return data.get("fields", {})`.
`parsed` is the outcome of `json.loads` on the response content: `none` models
a raised `JSONDecodeError` (uncaught, so it propagates); `.get` on a non-dict
value raises `AttributeError`. -/
def call_llm_to_get_field_mapping (parsed : Option Json) : Except String Json :=
  match parsed with
  | none => .error "JSONDecodeError"
  | some (.obj members) => .ok (dictGet members "fields" (.obj []))
  | some _ => .error "AttributeError"

/-! ### Template filler (src/app.py:113-133) -/

/-- `fill_template_docx(template_file, field_values)` (src/app.py:113-133):
re-open the template, assign `replace(p.text)` to every top-level paragraph,
and `replace(cell.text)` to every cell of every row of every table.
Serialization to bytes (`doc.save`) is out of model. -/
def fill_template_docx (doc : DocxDocument) (field_values : List (String × String)) :
    DocxDocument :=
  { paragraphs := doc.paragraphs.map (fun t => replace field_values t)
    tables := doc.tables.map (fun table =>
      table.map (fun row =>
        row.map (fun cell => setCellText (replace field_values (cellText cell))))) }

/-! ### Streamlit action handler (src/app.py:154-184) -/

/-- Pipeline stages the button handler can invoke, for tracing which
components a run reaches. -/
inductive Step where
  | extractPdfs
  | extractDocx
  | gateway
  | filler
deriving DecidableEq, Repr

/-- Outcome of one click of "Generate Filled Template". -/
inductive RunResult where
  | precondition_error (msg : String)
  | unhandled (msg : String)
  | success (mapping : Json) (output : DocxDocument)

/-- Inputs of one run: the optional uploaded template, the uploaded report
PDFs, and the parse outcome of the LLM response content. -/
structure RunInput where
  template_file : Option DocxDocument
  pdf_files : List (List (Option String))
  llm_parsed : Option Json

/-- Project the `"fields"` mapping returned by the gateway into the key/value
string pairs that `field_values.items()` hands to `text.replace(k, v)`; any
non-string value (or a non-object mapping) makes the filler raise a
`TypeError`/`AttributeError`. -/
def jsonFields? (j : Json) : Option (List (String × String)) :=
  match j with
  | .obj members =>
    members.foldr (fun kv acc =>
      match kv.2, acc with
      | .str v, some l => some ((kv.1, v) :: l)
      | _, _ => none) (some [])
  | _ => none

/-- The button handler (src/app.py:154-184): check the two preconditions
(missing template, then missing reports), each aborting via `st.error` +
`st.stop`; then extract the PDFs' text, extract the template's text, call the
gateway, and fill the template.  The second component records which pipeline
stages actually ran. -/
def run_action (inp : RunInput) : RunResult × List Step :=
  match inp.template_file with
  | none => (.precondition_error "Please upload a DOCX template.", [])
  | some tmpl =>
    if inp.pdf_files.isEmpty then
      (.precondition_error "Please upload at least one PDF photo report.", [])
    else
      let _reports_text := extract_text_from_pdfs inp.pdf_files
      let _template_text := extract_text_from_docx tmpl
      match call_llm_to_get_field_mapping inp.llm_parsed with
      | .error e => (.unhandled e, [.extractPdfs, .extractDocx, .gateway])
      | .ok mapping =>
        match jsonFields? mapping with
        | none => (.unhandled "TypeError", [.extractPdfs, .extractDocx, .gateway, .filler])
        | some fields =>
          (.success mapping (fill_template_docx tmpl fields),
           [.extractPdfs, .extractDocx, .gateway, .filler])

/-! ## Helper lemmas -/

lemma foldl_snoc_map {α β : Type} (f : α → β) (l : List α) :
    ∀ acc : List β, l.foldl (fun t x => t ++ [f x]) acc = acc ++ l.map f := by
  induction l with
  | nil => simp
  | cons x xs ih => intro acc; simp [ih]

lemma cellText_setCellText (s : String) : cellText (setCellText s) = s := rfl

lemma length_flatMap_cons_const (v : List Char) :
    ∀ L : List Char, (L.flatMap (fun c => c :: v)).length = L.length * (1 + v.length) := by
  intro L
  induction L with
  | nil => simp
  | cons c cs ih => simp [ih]; ring

/-! ## Claims -/

/-- C2: for every list of report PDF files, `extract_text_from_pdfs` returns
exactly the per-page extracted texts, in upload order then page order within
each file, joined with blank-line separators; a page whose extraction yields
nothing contributes the empty string (via `Option.getD ""`) rather than being
omitted, since the page list is mapped, never filtered. -/
theorem extract_text_from_pdfs_spec (pdf_files : List (List (Option String))) :
    extract_text_from_pdfs pdf_files =
      String.intercalate "\n\n"
        (pdf_files.flatMap (fun reader => reader.map (fun page => page.getD ""))) := by
  have key : ∀ (files : List (List (Option String))) (acc : List String),
      files.foldl (fun a reader => reader.foldl (fun a page => a ++ [page.getD ""]) a) acc
        = acc ++ files.flatMap (fun reader => reader.map (fun page => page.getD "")) := by
    intro files
    induction files with
    | nil => simp
    | cons r rs ih =>
      intro acc
      simp only [List.foldl_cons, List.flatMap_cons]
      rw [foldl_snoc_map, ih, List.append_assoc]
  simp only [extract_text_from_pdfs]
  rw [key, List.nil_append]

/-- C3: for every template document, `extract_text_from_docx` emits every
paragraph's text in document order before any table content, then for each
table in document order each row, each cell within the row, and each
paragraph within the cell, and joins all emitted lines with single
newlines. -/
theorem extract_text_from_docx_spec (doc : DocxDocument) :
    extract_text_from_docx doc =
      String.intercalate "\n"
        (doc.paragraphs ++ doc.tables.flatMap (fun table =>
          table.flatMap (fun row => row.flatMap (fun cell => cell)))) := by
  have hcell : ∀ (cell : Cell) (acc : List String),
      cell.foldl (fun ls p => ls ++ [p]) acc = acc ++ cell := by
    intro cell acc; simpa using foldl_snoc_map id cell acc
  have hrow : ∀ (row : Row) (acc : List String),
      row.foldl (fun ls cell => cell.foldl (fun ls p => ls ++ [p]) ls) acc
        = acc ++ row.flatMap (fun cell => cell) := by
    intro row
    induction row with
    | nil => simp
    | cons c cs ih =>
      intro acc
      simp only [List.foldl_cons, List.flatMap_cons]
      rw [hcell, ih, List.append_assoc]
  have htable : ∀ (table : Table) (acc : List String),
      table.foldl (fun ls row =>
          row.foldl (fun ls cell => cell.foldl (fun ls p => ls ++ [p]) ls) ls) acc
        = acc ++ table.flatMap (fun row => row.flatMap (fun cell => cell)) := by
    intro table
    induction table with
    | nil => simp
    | cons r rs ih =>
      intro acc
      simp only [List.foldl_cons, List.flatMap_cons]
      rw [hrow, ih, List.append_assoc]
  have htables : ∀ (tables : List Table) (acc : List String),
      tables.foldl (fun ls table =>
          table.foldl (fun ls row =>
            row.foldl (fun ls cell => cell.foldl (fun ls p => ls ++ [p]) ls) ls) ls) acc
        = acc ++ tables.flatMap (fun table =>
            table.flatMap (fun row => row.flatMap (fun cell => cell))) := by
    intro tables
    induction tables with
    | nil => simp
    | cons t ts ih =>
      intro acc
      simp only [List.foldl_cons, List.flatMap_cons]
      rw [htable, ih, List.append_assoc]
  simp only [extract_text_from_docx]
  rw [htables, hcell, List.nil_append]

/-- C1 counterexample: the claim says the substitution function used by the
template filler returns "B" for the mapping [("A", "B"), ("B", "C")] and
input "A"; the code's per-entry fold returns "C" there, because the second
entry re-scans the text already rewritten by the first. -/
theorem replace_chain_counterexample :
    replace [("A", "B"), ("B", "C")] "A" ≠ "B" := by decide

/-- C1 amended: substitution folds the mapping entries in iteration order over
the already-substituted text, so a replacement value produced by an earlier
key IS re-scanned for later keys' placeholders — [("A", "B"), ("B", "C")] on
"A" gives "C".  Within a single entry's pass the inserted value is not
re-scanned for that same key: [("A", "AA")] on "A" gives "AA". -/
theorem replace_chain_rescans :
    replace [("A", "B"), ("B", "C")] "A" = "C" ∧
    replace [("A", "AA")] "A" = "AA" := by decide

/-- C4: filling a template with the empty mapping is the identity on text
content: every top-level paragraph text and every table-cell text (as read by
`cellText`) is unchanged. -/
theorem fill_template_docx_empty_mapping (doc : DocxDocument) :
    (fill_template_docx doc []).paragraphs = doc.paragraphs ∧
    (fill_template_docx doc []).tables.map (fun table => table.map (fun row => row.map cellText)) =
      doc.tables.map (fun table => table.map (fun row => row.map cellText)) := by
  constructor
  · simp only [fill_template_docx]
    have h1 : (fun t => replace [] t) = fun t : String => t := funext (fun _ => rfl)
    rw [h1]
    simp
  · simp only [fill_template_docx, List.map_map, Function.comp_def]
    rfl

/-- C5: when the parsed LLM response is a JSON object,
`call_llm_to_get_field_mapping` returns the value of its top-level "fields"
key (`dict.get` semantics: the last binding wins), and returns the empty
mapping when that key is absent. -/
theorem call_llm_to_get_field_mapping_fields (members : List (String × Json)) :
    (∀ v, members.reverse.lookup "fields" = some v →
        call_llm_to_get_field_mapping (some (.obj members)) = .ok v) ∧
    (members.reverse.lookup "fields" = none →
        call_llm_to_get_field_mapping (some (.obj members)) = .ok (.obj [])) := by
  constructor
  · intro v hv
    simp [call_llm_to_get_field_mapping, dictGet, hv]
  · intro h
    simp [call_llm_to_get_field_mapping, dictGet, h]

/-- Witness for C5: a response with a "fields" member returns that member's
value; a response without one returns the empty object. -/
theorem call_llm_to_get_field_mapping_fields_witness :
    call_llm_to_get_field_mapping (some (.obj [("fields", .str "v")])) = .ok (.str "v") ∧
    call_llm_to_get_field_mapping (some (.obj [("status", .str "ok")])) = .ok (.obj []) :=
  ⟨(call_llm_to_get_field_mapping_fields [("fields", .str "v")]).1 (.str "v") rfl,
   (call_llm_to_get_field_mapping_fields [("status", .str "ok")]).2 rfl⟩

/-- C6: when the LLM response content is not valid JSON (the parse outcome is
`none`), a run that passed both preconditions terminates with an unhandled
`JSONDecodeError`: the result is not a success, and the filler stage is never
reached, so no filled output document is produced. -/
theorem llm_parse_failure_terminates_run (inp : RunInput) (tmpl : DocxDocument)
    (ht : inp.template_file = some tmpl) (hp : inp.pdf_files ≠ [])
    (hj : inp.llm_parsed = none) :
    (run_action inp).1 = .unhandled "JSONDecodeError" ∧
    Step.filler ∉ (run_action inp).2 ∧
    (∀ m o, (run_action inp).1 ≠ .success m o) := by
  have hpe : inp.pdf_files.isEmpty = false := by
    cases h : inp.pdf_files with
    | nil => exact absurd h hp
    | cons a l => rfl
  simp [run_action, ht, hpe, hj, call_llm_to_get_field_mapping]

/-- Witness for C6: a concrete run with a template, one report, and an
unparseable LLM response ends in the unhandled parse error with no filler
invocation and no success. -/
theorem llm_parse_failure_terminates_run_witness :
    (run_action ⟨some ⟨["Name:"], []⟩, [[some "report"]], none⟩).1
        = .unhandled "JSONDecodeError" ∧
    Step.filler ∉ (run_action ⟨some ⟨["Name:"], []⟩, [[some "report"]], none⟩).2 ∧
    (∀ m o, (run_action ⟨some ⟨["Name:"], []⟩, [[some "report"]], none⟩).1
        ≠ .success m o) :=
  llm_parse_failure_terminates_run ⟨some ⟨["Name:"], []⟩, [[some "report"]], none⟩
    ⟨["Name:"], []⟩ rfl (by simp) rfl

/-- C7 counterexample: the claim says that whenever the credential is present
in process configuration a client is constructed; but `if not api_key` also
fires on a present-but-empty credential, so `get_llm_client` raises
`ValueError` for the empty string instead of returning a client. -/
theorem get_llm_client_present_empty_counterexample :
    get_llm_client (some "") = .error "OPENROUTER_API_KEY not found in .env" := rfl

/-- C7 amended: if the credential is absent or is the empty string,
`get_llm_client` raises a `ValueError`; for any present non-empty credential
it returns a client configured with the OpenRouter base URL, the key, and the
default headers carrying the bearer credential. -/
theorem get_llm_client_spec (env : Option String) :
    (env = none → get_llm_client env = .error "OPENROUTER_API_KEY not found in .env") ∧
    (env = some "" → get_llm_client env = .error "OPENROUTER_API_KEY not found in .env") ∧
    (∀ k, env = some k → k ≠ "" →
      get_llm_client env = .ok
        { base_url := "https://openrouter.ai/api/v1"
          api_key := k
          default_headers :=
            [("Authorization", "Bearer " ++ k),
             ("HTTP-Referer", "https://openrouter.ai"),
             ("X-Title", "Insurance-GLR-Streamlit-App")] }) := by
  refine ⟨?_, ?_, ?_⟩
  · intro h; rw [h]; rfl
  · intro h; rw [h]; rfl
  · intro k hk hne
    rw [hk]
    simp [get_llm_client, hne]

/-- Witness for C7 amended: a concrete non-empty key yields the configured
client. -/
theorem get_llm_client_spec_witness :
    get_llm_client (some "sk-test") = .ok
      { base_url := "https://openrouter.ai/api/v1"
        api_key := "sk-test"
        default_headers :=
          [("Authorization", "Bearer " ++ "sk-test"),
           ("HTTP-Referer", "https://openrouter.ai"),
           ("X-Title", "Insurance-GLR-Streamlit-App")] } :=
  (get_llm_client_spec (some "sk-test")).2.2 "sk-test" rfl (by decide)

/-- C8: when a precondition fails (no template uploaded, or no report
uploaded), the button handler halts with a user-visible precondition error
and its stage trace is empty — the extractor, gateway, and filler are never
invoked. -/
theorem preconditions_abort_before_pipeline (inp : RunInput)
    (h : inp.template_file = none ∨ inp.pdf_files = []) :
    (∃ msg, (run_action inp).1 = .precondition_error msg) ∧
    (run_action inp).2 = [] := by
  rcases h with h | h
  · simp [run_action, h]
  · cases ht : inp.template_file with
    | none => simp [run_action, ht]
    | some tmpl => simp [run_action, ht, h]

/-- Witness for C8: a run with reports but no template halts with a
precondition error and an empty stage trace. -/
theorem preconditions_abort_before_pipeline_witness :
    (∃ msg, (run_action ⟨none, [[some "report"]], none⟩).1 = .precondition_error msg) ∧
    (run_action ⟨none, [[some "report"]], none⟩).2 = [] :=
  preconditions_abort_before_pipeline ⟨none, [[some "report"]], none⟩ (Or.inl rfl)

/-- C9: with the empty string as a mapping key and a non-empty value `v`, the
filler's substitution does not leave any text unchanged: `v` is inserted at
every character boundary (before each character and after the last), Python's
empty-pattern `str.replace` behaviour. -/
theorem replace_empty_key_inserts (t v : String) (hv : v ≠ "") :
    replace [("", v)] t = String.mk (v.data ++ t.data.flatMap (fun c => c :: v.data)) ∧
    replace [("", v)] t ≠ t := by
  have hshape : replace [("", v)] t
      = String.mk (v.data ++ t.data.flatMap (fun c => c :: v.data)) := rfl
  refine ⟨hshape, ?_⟩
  intro heq
  rw [hshape] at heq
  have hd : v.data ++ t.data.flatMap (fun c => c :: v.data) = t.data :=
    congrArg String.data heq
  have hlen := congrArg List.length hd
  simp only [List.length_append, length_flatMap_cons_const] at hlen
  rw [Nat.mul_add, Nat.mul_one, ← Nat.add_assoc, Nat.add_right_comm] at hlen
  have h0 : v.data.length + t.data.length * v.data.length = 0 := by
    have := hlen.trans (Nat.zero_add t.data.length).symm
    exact Nat.add_right_cancel this
  have hv0 : v.data.length = 0 := Nat.eq_zero_of_add_eq_zero_right h0
  exact hv (String.ext (List.eq_nil_of_length_eq_zero hv0))

/-- Witness for C9: replacing the empty key by "X" in "ab" yields "XaXbX",
which differs from "ab". -/
theorem replace_empty_key_inserts_witness :
    replace [("", "X")] "ab"
        = String.mk ("X".data ++ "ab".data.flatMap (fun c => c :: "X".data)) ∧
    replace [("", "X")] "ab" ≠ "ab" :=
  replace_empty_key_inserts "ab" "X" (by decide)

/-- C10: `fill_template_docx` preserves document structure for every template
and every mapping: the number of top-level paragraphs, the number of tables,
and each table's row and per-row cell counts are unchanged; only text content
changes. -/
theorem fill_template_docx_preserves_structure (doc : DocxDocument)
    (field_values : List (String × String)) :
    (fill_template_docx doc field_values).paragraphs.length = doc.paragraphs.length ∧
    (fill_template_docx doc field_values).tables.length = doc.tables.length ∧
    (fill_template_docx doc field_values).tables.map (fun table => table.map List.length) =
      doc.tables.map (fun table => table.map List.length) := by
  refine ⟨by simp [fill_template_docx], by simp [fill_template_docx], ?_⟩
  simp [fill_template_docx, List.map_map, Function.comp_def]

end InsurDoc
